import Mathlib

/-!
Verification of the audit-logging subsystem of the task-tracking backend.

The definitions below are a shallow embedding of:
  * `src/models/Task.js` — the Mongoose lifecycle hooks implementing audit
    logging (post save, pre/post findOneAndUpdate, pre/post findOneAndDelete),
    together with the two diff helpers `getChangedFieldsForCreate` and
    `getChangedFieldsForUpdate`;
  * `src/models/TaskHistory.js` — the audit-record shape;
  * `src/controllers/taskController.js` — the `auditUser` actor snapshot the
    controller attaches to each mutation;
  * `src/controllers/auditController.js` — the store operations the read side
    issues against the audit store.

Dynamic JavaScript values appearing in the audited fields are modelled by
`JsVal`; `undefined` (also standing for an absent property) is distinct from
`null`, matching strict `===` comparison, and ObjectId values are objects
compared by reference (see `JsVal`). The hook bodies are embedded as
functions of the document/query state the hook receives; the states the
framework actually presents to `post('save')` are constrained (Mongoose runs
`$__reset()`, which clears the modified paths and the `isNew` flag, before
`post('save')` middleware fires) and are captured by `postSaveState`.
-/

/-- JavaScript runtime values as used by the audited fields of a Task:
`undef` models `undefined` (and an absent property), `null` the JS `null`,
`str`/`bool`/`num` the primitives compared by value under `===`. `oid` is a
Mongoose ObjectId — a JS object, which `===`/`!==` compare by REFERENCE:
`ref` identifies the object instance, and two ObjectId instances holding the
same stored id (for example, the results of two separate fetches of the same
document) are distinct references, hence distinct `JsVal` values. -/
inductive JsVal where
  | undef
  | null
  | str (s : String)
  | bool (b : Bool)
  | num (n : Int)
  | oid (ref : Nat)
deriving DecidableEq, Repr

/-- The audited field values of a Task document (schema fields `title`,
`description`, `completed`, `owner` from src/models/Task.js). -/
structure TaskFields where
  title : JsVal
  description : JsVal
  completed : JsVal
  owner : JsVal
deriving DecidableEq, Repr

/-- Property read `doc[field]` for a dynamic field name; a property that is not
one of the schema fields reads as `undefined`. -/
def TaskFields.get : TaskFields → String → JsVal
  | t, "title" => t.title
  | t, "description" => t.description
  | t, "completed" => t.completed
  | t, "owner" => t.owner
  | _, _ => JsVal.undef

/-- The fixed list of audited fields, in declaration order:
`const auditFields = ['title', 'description', 'completed', 'owner'];`. -/
def auditFields : List String := ["title", "description", "completed", "owner"]

/-- One entry of the `logs` array of a TaskHistory record
(src/models/TaskHistory.js). -/
structure LogEntry where
  field_name : String
  from_value : JsVal
  to_value : JsVal
deriving DecidableEq, Repr

/-- The `auditUser` context object attached by the controllers (a plain object
with `id`, `name`, `role`). -/
structure UserContext where
  id : JsVal
  name : JsVal
  role : JsVal
deriving DecidableEq, Repr

/-- The `created_by` subdocument of a TaskHistory record. -/
structure CreatedBy where
  id : JsVal
  name : JsVal
  role : JsVal
deriving DecidableEq, Repr

/-- A TaskHistory record as passed to `TaskHistory.create`
(src/models/TaskHistory.js); `created_at` is a wall-clock timestamp and is not
modelled. -/
structure TaskHistoryRecord where
  model : String
  model_id : Nat
  change_type : String
  logs : List LogEntry
  created_by : Option CreatedBy
deriving DecidableEq, Repr

/-- The `created_by` payload built from a user context; all three hooks build
the same `{ id, name, role }` shape. -/
def createdByOf (u : UserContext) : CreatedBy :=
  { id := u.id, name := u.name, role := u.role }

/-- An input state of the `post('save')` hook body: a Mongoose Task document.
`current` holds the field values after the caller's in-memory mutations —
this is what both `doc[field]` and `Document#get` return. `prior` holds the
field values the document had before those mutations (for a new document it
is irrelevant); the source never reads it — it is present only so that claims
about pre-mutation values can be stated. `isNew` and `modified` are the
creation flag and modified-path set the hook reads; they are kept general
here so that properties of the hook body can be stated for all inputs, but in
the actual framework the states reachable at `post('save')` time always have
`isNew = false` and `modified = []` — Mongoose's save internals run
`$__reset()` (clearing every modified path) and clear `isNew` before
`post('save')` middleware fires; see `postSaveState`. `auditUser` is
`doc.$locals.auditUser` (`none` when absent). -/
structure SaveDoc where
  _id : Nat
  prior : TaskFields
  current : TaskFields
  isNew : Bool
  modified : List String
  auditUser : Option UserContext
deriving DecidableEq, Repr

/-- A `document.save()` call as issued by a caller: the caller either
constructed the document fresh (`wasNew = true`) or loaded it (field values
`prior`) and mutated it in memory to `current`, touching the paths in
`touched`. -/
structure SaveOp where
  _id : Nat
  prior : TaskFields
  current : TaskFields
  wasNew : Bool
  touched : List String
  auditUser : Option UserContext
deriving DecidableEq, Repr

/-- The document state the `post('save')` hook actually observes for a save
call: before `post('save')` middleware runs, Mongoose's save internals call
`$__reset()` — clearing the modified paths recorded for the save — and set
`isNew` to `false` (which is why the stock workaround is to stash
`this.$locals.wasNew = this.isNew` in a `pre('save')` hook; this source has
no such hook). So whatever the caller did (`wasNew`, `touched`), the hook
sees `isNew = false` and an empty modified-path set. -/
def postSaveState (s : SaveOp) : SaveDoc :=
  { _id := s._id
  , prior := s.prior
  , current := s.current
  , isNew := false
  , modified := []
  , auditUser := s.auditUser }

/-- Mongoose `Document#get(path, null, { getters: false })`: returns the
document's current value at `path`; the `getters: false` option only skips
schema getter transforms (none are defined on this schema). It does not
recover the pre-mutation value. -/
def SaveDoc.docGet (d : SaveDoc) (field : String) : JsVal :=
  d.current.get field

/-- Mongoose `doc.isModified(field)`: whether `field` is among the document's
modified paths. -/
def SaveDoc.isModified (d : SaveDoc) (field : String) : Bool :=
  d.modified.contains field

/-- Helper `getChangedFieldsForCreate` from src/models/Task.js: for each
audited field (in declaration order) that is not `undefined` on the document,
emit `{ field_name, from_value: null, to_value: doc[field] }`. -/
def getChangedFieldsForCreate (doc : TaskFields) : List LogEntry :=
  auditFields.filterMap fun field =>
    if doc.get field != JsVal.undef then
      some { field_name := field, from_value := JsVal.null, to_value := doc.get field }
    else
      none

/-- Helper `getChangedFieldsForUpdate` from src/models/Task.js: for each
audited field marked modified, emit an entry whose `from_value` is
`doc.get(field, null, { getters: false })` — i.e. the current value (see
`SaveDoc.docGet`) — and whose `to_value` is `doc[field]`. -/
def getChangedFieldsForUpdate (doc : SaveDoc) : List LogEntry :=
  auditFields.filterMap fun field =>
    if doc.isModified field then
      some { field_name := field
           , from_value := doc.docGet field
           , to_value := doc.current.get field }
    else
      none

/-- Operations the application can issue against the audit store
(the `TaskHistory` model). The store API also offers updates and deletes;
constructors for them exist so that their absence from every emitted trace is
a statement, not a typing accident. -/
inductive AuditStoreOp where
  | createRecord (r : TaskHistoryRecord)
  | countDocuments
  | findRecords
  | updateRecords
  | deleteRecords
deriving DecidableEq, Repr

/-- Whether an operation mutates the store. -/
def AuditStoreOp.isWrite : AuditStoreOp → Bool
  | .createRecord _ => true
  | .updateRecords => true
  | .deleteRecords => true
  | _ => false

/-- An operation is append-only-safe when it is either an append of a fresh
record or a pure read; updates and deletes of existing records are not. -/
def AuditStoreOp.appendOnly : AuditStoreOp → Bool
  | .createRecord _ => true
  | .countDocuments => true
  | .findRecords => true
  | .updateRecords => false
  | .deleteRecords => false

/-- The behaviour of `TaskHistory.create`: the write may succeed or raise. -/
abbrev AuditStore := TaskHistoryRecord → Except String Unit

/-- A store whose writes always succeed. -/
def okStore : AuditStore := fun _ => Except.ok ()

/-- A store whose writes always raise the given error. -/
def failingStore (msg : String) : AuditStore := fun _ => Except.error msg

/-- Observable outcome of one post-hook run: the store operations issued (in
order), the records durably appended, and any error the hook let escape to the
caller (`none` when the hook completed by calling `next()`). -/
structure HookOutcome where
  storeOps : List AuditStoreOp
  written : List TaskHistoryRecord
  thrown : Option String
deriving DecidableEq, Repr

/-- A hook run that never touched the store (`return next()`). -/
def emptyOutcome : HookOutcome :=
  { storeOps := [], written := [], thrown := none }

/-- One `await TaskHistory.create(entry)` performed inside the hooks'
`try { ... } catch (error) { console.error(...) }`: the create is issued; if
the store raises, the error is caught and swallowed (merely logged to the
console), so nothing is thrown to the caller either way. -/
def runCreate (store : AuditStore) (entry : TaskHistoryRecord) : HookOutcome :=
  match store entry with
  | Except.ok _ => { storeOps := [AuditStoreOp.createRecord entry], written := [entry], thrown := none }
  | Except.error _ => { storeOps := [AuditStoreOp.createRecord entry], written := [], thrown := none }

/-- The `taskSchema.post('save', ...)` hook from src/models/Task.js: compute
the change type from `doc.isNew`, diff with the corresponding helper, and
create a TaskHistory record when the log list is non-empty or the change is a
create; audit-store errors are caught inside the hook. -/
def postSaveHook (store : AuditStore) (doc : SaveDoc) : HookOutcome :=
  let userContext := doc.auditUser
  let changeType := if doc.isNew then "create" else "update"
  let logs :=
    if changeType = "create" then getChangedFieldsForCreate doc.current
    else getChangedFieldsForUpdate doc
  if 0 < logs.length ∨ changeType = "create" then
    runCreate store
      { model := "Task", model_id := doc._id, change_type := changeType
      , logs := logs, created_by := userContext.map createdByOf }
  else
    emptyOutcome

/-- The caller-visible result of `document.save()` once the post hook has run:
the saved document, unless the hook passed an error to `next`. -/
def saveCallerResult (store : AuditStore) (doc : SaveDoc) : Except String SaveDoc :=
  match (postSaveHook store doc).thrown with
  | some e => Except.error e
  | none => Except.ok doc

/-- A task document as handled by the atomic pathways: identity plus the
audited field values. -/
structure TaskDocData where
  _id : Nat
  fields : TaskFields
deriving DecidableEq, Repr

/-- The update payload as seen through `this.getUpdate()` in the post-update
hook: `setVal f` models `update.$set?.[f]` (`undef` when there is no `$set` or
the key is absent) and `topVal f` models `update[f]` (`undef` when absent). -/
structure UpdatePayload where
  setVal : String → JsVal
  topVal : String → JsVal

/-- Query-object state at the time the `post('findOneAndUpdate')` hook runs:
`originalDoc` is `this._originalDoc` as stored by the pre hook (`none` when
the pre-hook fetch matched nothing or failed), `update` is `this.getUpdate()`,
and `auditUser` is `this.getOptions().auditUser` (`none` when absent). -/
structure UpdateQueryState where
  originalDoc : Option TaskDocData
  update : UpdatePayload
  auditUser : Option UserContext

/-- The new-value resolution of the post-update hook:
`update.$set?.[field] !== undefined ? update.$set[field]
 : update[field] !== undefined ? update[field] : doc[field]`. -/
def resolvedNewValue (u : UpdatePayload) (doc : TaskFields) (field : String) : JsVal :=
  if u.setVal field != JsVal.undef then u.setVal field
  else if u.topVal field != JsVal.undef then u.topVal field
  else doc.get field

/-- The per-field comparison loop of the post-update hook: for each audited
field, take `oldValue` from the pre-hook snapshot and `newValue` from
`resolvedNewValue`; log only if `oldValue !== newValue && newValue !==
undefined` (strict comparison: `null` and `undefined` differ). -/
def atomicUpdateLogs (originalDoc : TaskFields) (u : UpdatePayload) (doc : TaskFields) :
    List LogEntry :=
  auditFields.filterMap fun field =>
    let oldValue := originalDoc.get field
    let newValue := resolvedNewValue u doc field
    if oldValue != newValue && newValue != JsVal.undef then
      some { field_name := field, from_value := oldValue, to_value := newValue }
    else
      none

/-- The `taskSchema.post(['findOneAndUpdate', 'findOneAndReplace'], ...)` hook
from src/models/Task.js. `doc` is the post-operation document (`none` when the
operation matched nothing): the hook returns at once on `!doc`, then on a
missing `this._originalDoc`; otherwise it diffs and creates a TaskHistory
record only when the log list is non-empty, catching store errors. -/
def postFindOneAndUpdateHook (store : AuditStore) (q : UpdateQueryState)
    (doc : Option TaskDocData) : HookOutcome :=
  match doc with
  | none => emptyOutcome
  | some d =>
    match q.originalDoc with
    | none => emptyOutcome
    | some orig =>
      let logs := atomicUpdateLogs orig.fields q.update d.fields
      if 0 < logs.length then
        runCreate store
          { model := "Task", model_id := d._id, change_type := "update"
          , logs := logs, created_by := q.auditUser.map createdByOf }
      else
        emptyOutcome

/-- The caller-visible result of the atomic update once the post hook has run:
the post-operation document (or `none` on no match), unless the hook passed an
error to `next`. -/
def findOneAndUpdateCallerResult (store : AuditStore) (q : UpdateQueryState)
    (doc : Option TaskDocData) : Except String (Option TaskDocData) :=
  match (postFindOneAndUpdateHook store q doc).thrown with
  | some e => Except.error e
  | none => Except.ok doc

/-- Query-object state at the time the `post('findOneAndDelete')` hook runs:
`deletedDoc` is `this._deletedDoc` as stored by the pre hook, `auditUser` is
`this.getOptions().auditUser`. -/
structure DeleteQueryState where
  deletedDoc : Option TaskDocData
  auditUser : Option UserContext
deriving DecidableEq, Repr

/-- The fixed sentinel log list written for deletions. -/
def deleteSentinelLogs : List LogEntry :=
  [{ field_name := "status", from_value := JsVal.str "active", to_value := JsVal.str "deleted" }]

/-- The `taskSchema.post(['findOneAndDelete', 'findOneAndRemove'], ...)` hook
from src/models/Task.js: `const deletedDoc = this._deletedDoc || doc;`
(falling back to the post-operation document when the pre-hook capture got
nothing); if neither identifies an entity the hook returns without writing;
otherwise it creates the sentinel delete record, catching store errors. -/
def postFindOneAndDeleteHook (store : AuditStore) (q : DeleteQueryState)
    (doc : Option TaskDocData) : HookOutcome :=
  let deletedDoc :=
    match q.deletedDoc with
    | some d => some d
    | none => doc
  match deletedDoc with
  | none => emptyOutcome
  | some d =>
    runCreate store
      { model := "Task", model_id := d._id, change_type := "delete"
      , logs := deleteSentinelLogs, created_by := q.auditUser.map createdByOf }

/-- The caller-visible result of the atomic delete once the post hook has run:
the deleted document (or `none` on no match), unless the hook passed an error
to `next`. -/
def findOneAndDeleteCallerResult (store : AuditStore) (q : DeleteQueryState)
    (doc : Option TaskDocData) : Except String (Option TaskDocData) :=
  match (postFindOneAndDeleteHook store q doc).thrown with
  | some e => Except.error e
  | none => Except.ok doc

/-- Store operations issued against the audit store by `getAuditLogs`
(src audit controller): `TaskHistory.countDocuments(query)` followed by
`TaskHistory.find(query).sort(...).skip(...).limit(...)` — reads only. -/
def getAuditLogsStoreOps : List AuditStoreOp :=
  [AuditStoreOp.countDocuments, AuditStoreOp.findRecords]

/-- Store operations issued against the audit store by `getTaskAuditLogs`:
a single `TaskHistory.find({ model_id: taskId })` — a read. -/
def getTaskAuditLogsStoreOps : List AuditStoreOp :=
  [AuditStoreOp.findRecords]

/-- `req.user` as supplied to the task controller by the auth middleware:
identity, email, and roles (the User schema restricts each role to
`'user'` or `'admin'`). -/
structure ReqUser where
  _id : Nat
  email : String
  roles : List String
deriving DecidableEq, Repr

/-- JavaScript `req.user.roles[0] || 'user'`: indexing an empty array yields
`undefined` (falsy), and an empty string is also falsy; any other string is
returned as-is. -/
def rolesFirstOrUser (roles : List String) : String :=
  match roles with
  | [] => "user"
  | r :: _ => if r = "" then "user" else r

/-- The `auditUser` context object built identically in `createTask`,
`updateTask` and `deleteTask` (src/controllers/taskController.js):
`{ id: req.user._id, name: req.user.email, role: req.user.roles[0] || 'user' }`. -/
def buildAuditUser (u : ReqUser) : UserContext :=
  { id := JsVal.oid u._id
  , name := JsVal.str u.email
  , role := JsVal.str (rolesFirstOrUser u.roles) }

/-! Helper lemmas about the building blocks of the hooks. -/

theorem runCreate_thrown_none (store : AuditStore) (e : TaskHistoryRecord) :
    (runCreate store e).thrown = none := by
  unfold runCreate; cases store e <;> rfl

theorem runCreate_storeOps_eq (store : AuditStore) (e : TaskHistoryRecord) :
    (runCreate store e).storeOps = [AuditStoreOp.createRecord e] := by
  unfold runCreate; cases store e <;> rfl

theorem runCreate_okStore_eq (e : TaskHistoryRecord) :
    runCreate okStore e =
      { storeOps := [AuditStoreOp.createRecord e], written := [e], thrown := none } := rfl

theorem runCreate_written_mem {store : AuditStore} {e r : TaskHistoryRecord}
    (h : r ∈ (runCreate store e).written) : r = e := by
  unfold runCreate at h
  split at h <;> simp_all

theorem guardedCreate_thrown_none (c : Prop) [Decidable c] (store : AuditStore)
    (e : TaskHistoryRecord) :
    (if c then runCreate store e else emptyOutcome).thrown = none := by
  by_cases h : c
  · rw [if_pos h]; exact runCreate_thrown_none store e
  · rw [if_neg h]; rfl

theorem postSaveHook_thrown_none (store : AuditStore) (d : SaveDoc) :
    (postSaveHook store d).thrown = none := by
  unfold postSaveHook
  exact guardedCreate_thrown_none _ store _

theorem postFindOneAndUpdateHook_thrown_none (store : AuditStore) (q : UpdateQueryState)
    (doc : Option TaskDocData) : (postFindOneAndUpdateHook store q doc).thrown = none := by
  unfold postFindOneAndUpdateHook
  cases doc with
  | none => rfl
  | some d =>
    cases q.originalDoc with
    | none => rfl
    | some orig =>
      exact guardedCreate_thrown_none _ store _

theorem postFindOneAndDeleteHook_thrown_none (store : AuditStore) (q : DeleteQueryState)
    (doc : Option TaskDocData) : (postFindOneAndDeleteHook store q doc).thrown = none := by
  unfold postFindOneAndDeleteHook
  cases q.deletedDoc with
  | none =>
    cases doc with
    | none => rfl
    | some d => exact runCreate_thrown_none store _
  | some d => exact runCreate_thrown_none store _

/-- C1: on every mutation pathway (save, atomic conditional update, atomic
conditional delete) an audit-store error in the after-phase hook is caught
inside the hook: the hook never passes an error to the caller, and the
caller-visible result of the primary mutation is the same for every
audit-store behaviour — in particular identical to the result with a store
that never fails. -/
theorem audit_failure_never_propagates :
    (∀ (store : AuditStore) (d : SaveDoc), (postSaveHook store d).thrown = none) ∧
    (∀ (s₁ s₂ : AuditStore) (d : SaveDoc), saveCallerResult s₁ d = saveCallerResult s₂ d) ∧
    (∀ (store : AuditStore) (d : SaveDoc), saveCallerResult store d = Except.ok d) ∧
    (∀ (store : AuditStore) (q : UpdateQueryState) (doc : Option TaskDocData),
      (postFindOneAndUpdateHook store q doc).thrown = none) ∧
    (∀ (s₁ s₂ : AuditStore) (q : UpdateQueryState) (doc : Option TaskDocData),
      findOneAndUpdateCallerResult s₁ q doc = findOneAndUpdateCallerResult s₂ q doc) ∧
    (∀ (store : AuditStore) (q : UpdateQueryState) (doc : Option TaskDocData),
      findOneAndUpdateCallerResult store q doc = Except.ok doc) ∧
    (∀ (store : AuditStore) (q : DeleteQueryState) (doc : Option TaskDocData),
      (postFindOneAndDeleteHook store q doc).thrown = none) ∧
    (∀ (s₁ s₂ : AuditStore) (q : DeleteQueryState) (doc : Option TaskDocData),
      findOneAndDeleteCallerResult s₁ q doc = findOneAndDeleteCallerResult s₂ q doc) ∧
    (∀ (store : AuditStore) (q : DeleteQueryState) (doc : Option TaskDocData),
      findOneAndDeleteCallerResult store q doc = Except.ok doc) := by
  refine ⟨postSaveHook_thrown_none, ?_, ?_, postFindOneAndUpdateHook_thrown_none, ?_, ?_,
    postFindOneAndDeleteHook_thrown_none, ?_, ?_⟩
  · intro s₁ s₂ d
    simp [saveCallerResult, postSaveHook_thrown_none]
  · intro store d
    simp [saveCallerResult, postSaveHook_thrown_none]
  · intro s₁ s₂ q doc
    simp [findOneAndUpdateCallerResult, postFindOneAndUpdateHook_thrown_none]
  · intro store q doc
    simp [findOneAndUpdateCallerResult, postFindOneAndUpdateHook_thrown_none]
  · intro s₁ s₂ q doc
    simp [findOneAndDeleteCallerResult, postFindOneAndDeleteHook_thrown_none]
  · intro store q doc
    simp [findOneAndDeleteCallerResult, postFindOneAndDeleteHook_thrown_none]

/-- A create as the controller performs it: a fresh document (`wasNew`),
every audited field set before save, title "Buy milk". -/
def buyMilkCreate : SaveOp :=
  { _id := 42
  , prior := ⟨JsVal.undef, JsVal.undef, JsVal.undef, JsVal.undef⟩
  , current := ⟨JsVal.str "Buy milk", JsVal.str "", JsVal.bool false, JsVal.oid 7⟩
  , wasNew := true
  , touched := ["title", "description", "completed", "owner"]
  , auditUser := none }

/-- C2 (code bug): the create pathway's audit write is unreachable. By the
time `post('save')` runs, `$__reset()` has cleared the modified paths and set
`isNew` to `false`, so the hook computes `changeType = "update"` with an
empty log list and the guard `logs.length > 0 || changeType === 'create'`
suppresses the write: no save — creates included — ever produces an
AuditRecord, against the claim's "exactly one record with changeKind=create".
Shown for every save call and at the concrete create of "Buy milk". -/
theorem create_never_audited :
    (∀ (s : SaveOp), (postSaveState s).isNew = false ∧ (postSaveState s).modified = []) ∧
    (∀ (store : AuditStore) (s : SaveOp),
      postSaveHook store (postSaveState s) = emptyOutcome) ∧
    buyMilkCreate.wasNew = true ∧
    postSaveHook okStore (postSaveState buyMilkCreate) = emptyOutcome := by
  exact ⟨fun s => ⟨rfl, rfl⟩, fun store s => rfl, rfl, rfl⟩

/-- A save of an existing Task whose title the caller mutated in memory from
"a" to "b" before calling save. -/
def saveUpdateAttempt : SaveOp :=
  { _id := 1
  , prior := ⟨JsVal.str "a", JsVal.str "", JsVal.bool false, JsVal.oid 7⟩
  , current := ⟨JsVal.str "b", JsVal.str "", JsVal.bool false, JsVal.oid 7⟩
  , wasNew := false
  , touched := ["title"]
  , auditUser := none }

/-- C3 (code bug): for an in-memory update of title from "a" to "b" the code
writes no AuditRecord at all. The modified paths are cleared by `$__reset()`
before `post('save')` fires, so `doc.isModified('title')` is `false` in the
hook, `getChangedFieldsForUpdate` returns the empty list, and the guard
suppresses the write — against the claim's "exactly one AuditRecord whose
fieldChanges are exactly the modified fields with pre/post values". (A
second, independent defect: even at a state where the path were still marked
modified, the source's `originalValue` comes from
`doc.get(field, null, { getters: false })`, which returns the document's
current value, so `from_value` could never be the pre-mutation value.) -/
theorem save_update_never_audited :
    saveUpdateAttempt.wasNew = false ∧
    saveUpdateAttempt.touched = ["title"] ∧
    saveUpdateAttempt.prior.title = JsVal.str "a" ∧
    saveUpdateAttempt.current.title = JsVal.str "b" ∧
    (postSaveState saveUpdateAttempt).isModified "title" = false ∧
    getChangedFieldsForUpdate (postSaveState saveUpdateAttempt) = [] ∧
    postSaveHook okStore (postSaveState saveUpdateAttempt) = emptyOutcome := by
  decide

/-- The before-phase snapshot of an atomic completed-flip update: completed
is `false`; its `owner` field holds the ObjectId instance this fetch
produced (reference 100). -/
def c4Snapshot : TaskDocData :=
  ⟨21, ⟨JsVal.str "t", JsVal.str "d", JsVal.bool false, JsVal.oid 100⟩⟩

/-- The post-update document of the same operation: the stored owner is
unchanged, but this second fetch materialises its own ObjectId instance
(reference 101), so `originalDoc.owner !== doc.owner` in JS. -/
def c4PostDoc : TaskDocData :=
  ⟨21, ⟨JsVal.str "t", JsVal.str "d", JsVal.bool true, JsVal.oid 101⟩⟩

/-- The update payload `{ $set: { completed: true } }` — no other field. -/
def c4Payload : UpdatePayload :=
  { setVal := fun f => if f = "completed" then JsVal.bool true else JsVal.undef
  , topVal := fun _ => JsVal.undef }

/-- C4 (code bug): an atomic update that sets only `completed` from `false`
to `true` does not produce the claimed single-entry record. The comparison
`oldValue !== newValue` is reference comparison on ObjectId objects, and the
snapshot and the post-update document are distinct fetches, so their `owner`
instances always differ by reference even though the stored owner did not
change: the hook writes a record with TWO entries — the completed flip plus a
spurious owner entry — against the claim (and the source's own comment "Only
log if value actually changed"). -/
theorem atomic_update_spurious_owner_entry :
    c4Snapshot.fields.owner ≠ c4PostDoc.fields.owner ∧
    postFindOneAndUpdateHook okStore ⟨some c4Snapshot, c4Payload, none⟩ (some c4PostDoc) =
      { storeOps := [AuditStoreOp.createRecord
          { model := "Task", model_id := 21, change_type := "update"
          , logs :=
              [ { field_name := "completed", from_value := JsVal.bool false
                , to_value := JsVal.bool true }
              , { field_name := "owner", from_value := JsVal.oid 100
                , to_value := JsVal.oid 101 } ]
          , created_by := none }]
      , written :=
          [{ model := "Task", model_id := 21, change_type := "update"
           , logs :=
               [ { field_name := "completed", from_value := JsVal.bool false
                 , to_value := JsVal.bool true }
               , { field_name := "owner", from_value := JsVal.oid 100
                 , to_value := JsVal.oid 101 } ]
           , created_by := none }]
      , thrown := none } := by
  decide

theorem guardedCreate_storeOps_mem {c : Prop} [Decidable c] {store : AuditStore}
    {e r : TaskHistoryRecord}
    (h : AuditStoreOp.createRecord r ∈ (if c then runCreate store e else emptyOutcome).storeOps) :
    r = e ∧ c := by
  by_cases hc : c
  · rw [if_pos hc, runCreate_storeOps_eq] at h
    simp only [List.mem_singleton, AuditStoreOp.createRecord.injEq] at h
    exact ⟨h, hc⟩
  · rw [if_neg hc] at h
    simp [emptyOutcome] at h

theorem guardedCreate_storeOps_ne_nil {c : Prop} [Decidable c] (store : AuditStore)
    (e : TaskHistoryRecord) (hc : c) :
    (if c then runCreate store e else emptyOutcome).storeOps ≠ [] := by
  rw [if_pos hc, runCreate_storeOps_eq]
  simp

theorem guardedCreate_written_mem {c : Prop} [Decidable c] {store : AuditStore}
    {e r : TaskHistoryRecord}
    (h : r ∈ (if c then runCreate store e else emptyOutcome).written) : r = e := by
  by_cases hc : c
  · rw [if_pos hc] at h
    exact runCreate_written_mem h
  · rw [if_neg hc] at h
    simp [emptyOutcome] at h

/-- A create attempt with zero audited fields set — the claim's degenerate
case where the create record was said to be written unconditionally. -/
def c5CreateAttempt : SaveOp :=
  { _id := 43
  , prior := ⟨JsVal.undef, JsVal.undef, JsVal.undef, JsVal.undef⟩
  , current := ⟨JsVal.undef, JsVal.undef, JsVal.undef, JsVal.undef⟩
  , wasNew := true
  , touched := []
  , auditUser := none }

/-- C5 counterexample: the claim's conjunct "a create writes its AuditRecord
unconditionally" is false — at a concrete create attempt the save pathway
issues no store operation and appends nothing, because the post-save hook
runs after the framework has cleared `isNew` and the modified paths and the
empty update record is suppressed. -/
theorem unconditional_create_write_refuted :
    c5CreateAttempt.wasNew = true ∧
    (postSaveHook okStore (postSaveState c5CreateAttempt)).storeOps = [] ∧
    (postSaveHook okStore (postSaveState c5CreateAttempt)).written = [] := by
  decide

/-- C5 (amended): audit records for updates with an empty change list are
suppressed — an atomic update whose computed log list is empty issues no
store operation, and every record the atomic hooks hand to the store with
`change_type = "update"` has a non-empty log list. The save pathway writes
nothing at all: an in-memory save with zero audited fields modified produces
no AuditRecord, but so does every other save, creates included, since the
post-save hook observes the document only after `$__reset()` has cleared its
creation flag and modified paths. -/
theorem empty_update_suppressed_amended :
    (∀ (store : AuditStore) (s : SaveOp),
      postSaveHook store (postSaveState s) = emptyOutcome) ∧
    (∀ (store : AuditStore) (orig : TaskDocData) (u : UpdatePayload)
        (actor : Option UserContext) (d : TaskDocData),
      atomicUpdateLogs orig.fields u d.fields = [] →
      postFindOneAndUpdateHook store ⟨some orig, u, actor⟩ (some d) = emptyOutcome) ∧
    (∀ (store : AuditStore) (q : UpdateQueryState) (doc : Option TaskDocData)
        (r : TaskHistoryRecord),
      AuditStoreOp.createRecord r ∈ (postFindOneAndUpdateHook store q doc).storeOps →
      r.change_type = "update" → r.logs ≠ []) ∧
    (∀ (store : AuditStore) (q : DeleteQueryState) (doc : Option TaskDocData)
        (r : TaskHistoryRecord),
      AuditStoreOp.createRecord r ∈ (postFindOneAndDeleteHook store q doc).storeOps →
      r.change_type = "update" → r.logs ≠ []) := by
  refine ⟨fun store s => rfl, ?_, ?_, ?_⟩
  · intro store orig u actor d hlogs
    unfold postFindOneAndUpdateHook
    dsimp only
    rw [hlogs]
    simp
  · intro store q doc r hmem hct
    unfold postFindOneAndUpdateHook at hmem
    cases doc with
    | none => simp [emptyOutcome] at hmem
    | some d =>
      cases horig : q.originalDoc with
      | none => rw [horig] at hmem; simp [emptyOutcome] at hmem
      | some orig =>
        rw [horig] at hmem
        obtain ⟨hre, hcond⟩ := guardedCreate_storeOps_mem hmem
        subst hre
        simp only
        exact List.ne_nil_of_length_pos hcond
  · intro store q doc r hmem hct
    unfold postFindOneAndDeleteHook at hmem
    cases hq : q.deletedDoc with
    | some d =>
      rw [hq] at hmem
      dsimp only at hmem
      rw [runCreate_storeOps_eq] at hmem
      simp only [List.mem_singleton, AuditStoreOp.createRecord.injEq] at hmem
      subst hmem
      simp at hct
    | none =>
      rw [hq] at hmem
      dsimp only at hmem
      cases doc with
      | none => simp [emptyOutcome] at hmem
      | some d =>
        dsimp only at hmem
        rw [runCreate_storeOps_eq] at hmem
        simp only [List.mem_singleton, AuditStoreOp.createRecord.injEq] at hmem
        subst hmem
        simp at hct

/-- A snapshot together with an update payload that changes nothing. Reusing
the same document value for snapshot and post-document makes the computed
change list empty; in the running program the two fetches would materialise
distinct owner ObjectId instances (see `c4Snapshot`/`c4PostDoc`), so this
instantiates the suppression guard at a model state. -/
def quietOrig : TaskDocData := ⟨4, ⟨JsVal.str "t", JsVal.str "", JsVal.bool false, JsVal.oid 2⟩⟩

def quietPayload : UpdatePayload :=
  { setVal := fun _ => JsVal.undef, topVal := fun _ => JsVal.undef }

theorem empty_update_suppressed_amended_instance :
    postFindOneAndUpdateHook okStore ⟨some quietOrig, quietPayload, none⟩ (some quietOrig) =
      emptyOutcome ∧
    ({ model := "Task", model_id := 21, change_type := "update"
     , logs :=
         [ { field_name := "completed", from_value := JsVal.bool false
           , to_value := JsVal.bool true }
         , { field_name := "owner", from_value := JsVal.oid 100
           , to_value := JsVal.oid 101 } ]
     , created_by := none } : TaskHistoryRecord).logs ≠ [] := by
  refine ⟨empty_update_suppressed_amended.2.1 okStore quietOrig quietPayload none quietOrig
      (by decide),
    empty_update_suppressed_amended.2.2.1 okStore ⟨some c4Snapshot, c4Payload, none⟩
      (some c4PostDoc)
      ({ model := "Task", model_id := 21, change_type := "update"
       , logs :=
           [ { field_name := "completed", from_value := JsVal.bool false
             , to_value := JsVal.bool true }
           , { field_name := "owner", from_value := JsVal.oid 100
             , to_value := JsVal.oid 101 } ]
       , created_by := none } : TaskHistoryRecord)
      (by decide) rfl⟩

/-- C6: the atomic delete writes exactly one sentinel record for the entity
identified by the before-phase capture (or, when that capture got nothing, by
the post-operation document): `change_type = "delete"`, `model_id` the
identified entity, logs the fixed status active-to-deleted sentinel. When
neither identifies an entity, nothing is written. -/
theorem delete_sentinel_record :
    (∀ (q : DeleteQueryState) (doc : Option TaskDocData) (d : TaskDocData),
      q.deletedDoc = some d →
      postFindOneAndDeleteHook okStore q doc =
        { storeOps := [AuditStoreOp.createRecord
            { model := "Task", model_id := d._id, change_type := "delete"
            , logs := deleteSentinelLogs, created_by := q.auditUser.map createdByOf }]
        , written :=
            [{ model := "Task", model_id := d._id, change_type := "delete"
             , logs := deleteSentinelLogs, created_by := q.auditUser.map createdByOf }]
        , thrown := none }) ∧
    (∀ (actor : Option UserContext) (d : TaskDocData),
      postFindOneAndDeleteHook okStore ⟨none, actor⟩ (some d) =
        { storeOps := [AuditStoreOp.createRecord
            { model := "Task", model_id := d._id, change_type := "delete"
            , logs := deleteSentinelLogs, created_by := actor.map createdByOf }]
        , written :=
            [{ model := "Task", model_id := d._id, change_type := "delete"
             , logs := deleteSentinelLogs, created_by := actor.map createdByOf }]
        , thrown := none }) ∧
    (∀ (store : AuditStore) (actor : Option UserContext),
      postFindOneAndDeleteHook store ⟨none, actor⟩ none = emptyOutcome) := by
  refine ⟨?_, ?_, ?_⟩
  · intro q doc d hq
    unfold postFindOneAndDeleteHook
    rw [hq]
    rfl
  · intro actor d
    rfl
  · intro store actor
    rfl

/-- A delete whose before-phase capture succeeded. -/
def deletedCapture : TaskDocData := ⟨11, ⟨JsVal.str "gone", JsVal.str "", JsVal.bool true, JsVal.oid 2⟩⟩

theorem delete_sentinel_record_instance :
    postFindOneAndDeleteHook okStore ⟨some deletedCapture, none⟩ none =
      { storeOps := [AuditStoreOp.createRecord
          { model := "Task", model_id := 11, change_type := "delete"
          , logs := deleteSentinelLogs, created_by := none }]
      , written :=
          [{ model := "Task", model_id := 11, change_type := "delete"
           , logs := deleteSentinelLogs, created_by := none }]
      , thrown := none } :=
  delete_sentinel_record.1 ⟨some deletedCapture, none⟩ none deletedCapture rfl

/-- C7: in the atomic-update pathway, when the post-operation document is
absent (the update matched nothing), or the before-phase snapshot is missing,
the after-phase hook exits without issuing any store operation, and the
caller-visible result of the primary mutation is unaffected by the skip. -/
theorem atomic_update_skip_paths :
    (∀ (store : AuditStore) (q : UpdateQueryState),
      postFindOneAndUpdateHook store q none = emptyOutcome ∧
      findOneAndUpdateCallerResult store q none = Except.ok none) ∧
    (∀ (store : AuditStore) (u : UpdatePayload) (actor : Option UserContext) (d : TaskDocData),
      postFindOneAndUpdateHook store ⟨none, u, actor⟩ (some d) = emptyOutcome ∧
      findOneAndUpdateCallerResult store ⟨none, u, actor⟩ (some d) = Except.ok (some d)) := by
  constructor
  · intro store q
    exact ⟨rfl, rfl⟩
  · intro store u actor d
    exact ⟨rfl, rfl⟩

theorem guardedCreate_okStore_written_ne_nil (c : Prop) [Decidable c]
    (e : TaskHistoryRecord) (hc : c) :
    (if c then runCreate okStore e else emptyOutcome).written ≠ [] := by
  rw [if_pos hc]
  simp [runCreate, okStore]

/-- C8: when no actor context is supplied (no `auditUser` on the document's
`$locals` for saves, none in the operation options for the atomic pathways),
every record any hook hands to the store has `created_by = null`, the hook
never throws, and — exemplified on the create pathway with a working store —
the audit write still succeeds. -/
theorem absent_actor_null :
    (∀ (store : AuditStore) (d : SaveDoc), d.auditUser = none →
      ∀ r ∈ (postSaveHook store d).written, r.created_by = none) ∧
    (∀ (store : AuditStore) (q : UpdateQueryState) (doc : Option TaskDocData),
      q.auditUser = none →
      ∀ r ∈ (postFindOneAndUpdateHook store q doc).written, r.created_by = none) ∧
    (∀ (store : AuditStore) (q : DeleteQueryState) (doc : Option TaskDocData),
      q.auditUser = none →
      ∀ r ∈ (postFindOneAndDeleteHook store q doc).written, r.created_by = none) ∧
    (∀ (d : SaveDoc), d.auditUser = none → d.isNew = true →
      (postSaveHook okStore d).written ≠ [] ∧ (postSaveHook okStore d).thrown = none) := by
  refine ⟨?_, ?_, ?_, ?_⟩
  · intro store d hu r hr
    unfold postSaveHook at hr
    have he := guardedCreate_written_mem hr
    subst he
    simp [hu]
  · intro store q doc hu r hr
    unfold postFindOneAndUpdateHook at hr
    cases doc with
    | none => simp [emptyOutcome] at hr
    | some d =>
      cases horig : q.originalDoc with
      | none => rw [horig] at hr; simp [emptyOutcome] at hr
      | some orig =>
        rw [horig] at hr
        have he := guardedCreate_written_mem hr
        subst he
        simp [hu]
  · intro store q doc hu r hr
    unfold postFindOneAndDeleteHook at hr
    cases hq : q.deletedDoc with
    | some d =>
      rw [hq] at hr
      dsimp only at hr
      have he := runCreate_written_mem hr
      subst he
      simp [hu]
    | none =>
      rw [hq] at hr
      dsimp only at hr
      cases doc with
      | none => simp [emptyOutcome] at hr
      | some d =>
        dsimp only at hr
        have he := runCreate_written_mem hr
        subst he
        simp [hu]
  · intro d hu hn
    refine ⟨?_, postSaveHook_thrown_none okStore d⟩
    unfold postSaveHook
    refine guardedCreate_okStore_written_ne_nil _ _ (Or.inr ?_)
    simp [hn]

/-- A save of a new document with no actor context attached. -/
def anonymousCreateDoc : SaveDoc :=
  { _id := 12
  , prior := ⟨JsVal.undef, JsVal.undef, JsVal.undef, JsVal.undef⟩
  , current := ⟨JsVal.str "task", JsVal.str "", JsVal.bool false, JsVal.oid 8⟩
  , isNew := true, modified := [], auditUser := none }

/-- The record the create pathway writes for `anonymousCreateDoc`. -/
def anonymousCreateRecord : TaskHistoryRecord :=
  { model := "Task", model_id := 12, change_type := "create"
  , logs :=
      [ { field_name := "title", from_value := JsVal.null, to_value := JsVal.str "task" }
      , { field_name := "description", from_value := JsVal.null, to_value := JsVal.str "" }
      , { field_name := "completed", from_value := JsVal.null, to_value := JsVal.bool false }
      , { field_name := "owner", from_value := JsVal.null, to_value := JsVal.oid 8 } ]
  , created_by := none }

theorem absent_actor_null_instance :
    anonymousCreateRecord.created_by = none ∧
    (postSaveHook okStore anonymousCreateDoc).written ≠ [] ∧
    (postSaveHook okStore anonymousCreateDoc).thrown = none :=
  ⟨absent_actor_null.1 okStore anonymousCreateDoc rfl anonymousCreateRecord (by decide),
   (absent_actor_null.2.2.2 anonymousCreateDoc rfl rfl).1,
   (absent_actor_null.2.2.2 anonymousCreateDoc rfl rfl).2⟩

/-- An operation against the store is an append of a fresh record. -/
def AuditStoreOp.isAppend : AuditStoreOp → Bool
  | .createRecord _ => true
  | _ => false

theorem guardedCreate_storeOps_all_isAppend (c : Prop) [Decidable c] (store : AuditStore)
    (e : TaskHistoryRecord) :
    ((if c then runCreate store e else emptyOutcome).storeOps).all AuditStoreOp.isAppend = true := by
  by_cases hc : c
  · rw [if_pos hc, runCreate_storeOps_eq]
    rfl
  · rw [if_neg hc]
    rfl

/-- C9: every store operation any mutation hook issues against the audit
store is an append of a fresh record (never an update or a delete of
existing records), and the audit-log read side issues only read operations
(`countDocuments` and `find`) — no writes at all. -/
theorem audit_store_append_only :
    (∀ (store : AuditStore) (d : SaveDoc),
      ((postSaveHook store d).storeOps).all AuditStoreOp.isAppend = true) ∧
    (∀ (store : AuditStore) (q : UpdateQueryState) (doc : Option TaskDocData),
      ((postFindOneAndUpdateHook store q doc).storeOps).all AuditStoreOp.isAppend = true) ∧
    (∀ (store : AuditStore) (q : DeleteQueryState) (doc : Option TaskDocData),
      ((postFindOneAndDeleteHook store q doc).storeOps).all AuditStoreOp.isAppend = true) ∧
    (getAuditLogsStoreOps.all fun op => !op.isWrite) = true ∧
    (getTaskAuditLogsStoreOps.all fun op => !op.isWrite) = true ∧
    (getAuditLogsStoreOps.all AuditStoreOp.appendOnly) = true ∧
    (getTaskAuditLogsStoreOps.all AuditStoreOp.appendOnly) = true := by
  refine ⟨?_, ?_, ?_, rfl, rfl, rfl, rfl⟩
  · intro store d
    unfold postSaveHook
    exact guardedCreate_storeOps_all_isAppend _ store _
  · intro store q doc
    unfold postFindOneAndUpdateHook
    cases doc with
    | none => rfl
    | some d =>
      cases horig : q.originalDoc with
      | none => rfl
      | some orig =>
        exact guardedCreate_storeOps_all_isAppend _ store _
  · intro store q doc
    unfold postFindOneAndDeleteHook
    cases hq : q.deletedDoc with
    | some d =>
      dsimp only
      rw [runCreate_storeOps_eq]
      rfl
    | none =>
      dsimp only
      cases doc with
      | none => rfl
      | some d =>
        dsimp only
        rw [runCreate_storeOps_eq]
        rfl

/-- C10: the actor snapshot every task-controller mutation attaches is
`{ id: the user's id, name: the user's email, role: the first element of the
user's roles array, or "user" when that array is empty }`; a user with roles
["user", "admin"] is recorded with role "user"; and each hook writes this
snapshot — three scalar fields, never the roles list — into `created_by`. -/
theorem controller_actor_snapshot :
    (∀ (u : ReqUser), (∀ r ∈ u.roles, r = "user" ∨ r = "admin") →
      buildAuditUser u =
        { id := JsVal.oid u._id, name := JsVal.str u.email
        , role := JsVal.str (match u.roles with | [] => "user" | r :: _ => r) }) ∧
    (buildAuditUser ⟨5, "a@b.c", ["user", "admin"]⟩ =
      { id := JsVal.oid 5, name := JsVal.str "a@b.c", role := JsVal.str "user" }) ∧
    (∀ (store : AuditStore) (d : SaveDoc) (u : ReqUser),
      d.auditUser = some (buildAuditUser u) →
      ∀ r ∈ (postSaveHook store d).written,
        r.created_by = some { id := JsVal.oid u._id, name := JsVal.str u.email
                            , role := JsVal.str (rolesFirstOrUser u.roles) }) ∧
    (∀ (store : AuditStore) (q : UpdateQueryState) (doc : Option TaskDocData) (u : ReqUser),
      q.auditUser = some (buildAuditUser u) →
      ∀ r ∈ (postFindOneAndUpdateHook store q doc).written,
        r.created_by = some { id := JsVal.oid u._id, name := JsVal.str u.email
                            , role := JsVal.str (rolesFirstOrUser u.roles) }) ∧
    (∀ (store : AuditStore) (q : DeleteQueryState) (doc : Option TaskDocData) (u : ReqUser),
      q.auditUser = some (buildAuditUser u) →
      ∀ r ∈ (postFindOneAndDeleteHook store q doc).written,
        r.created_by = some { id := JsVal.oid u._id, name := JsVal.str u.email
                            , role := JsVal.str (rolesFirstOrUser u.roles) }) := by
  refine ⟨?_, by decide, ?_, ?_, ?_⟩
  · intro u hroles
    unfold buildAuditUser rolesFirstOrUser
    cases hu : u.roles with
    | nil => rfl
    | cons r t =>
      rcases hroles r (by rw [hu]; exact List.mem_cons_self r t) with hr | hr <;>
        subst hr <;> rfl
  · intro store d u hu r hr
    unfold postSaveHook at hr
    have he := guardedCreate_written_mem hr
    subst he
    simp [hu, createdByOf, buildAuditUser]
  · intro store q doc u hu r hr
    unfold postFindOneAndUpdateHook at hr
    cases doc with
    | none => simp [emptyOutcome] at hr
    | some d =>
      cases horig : q.originalDoc with
      | none => rw [horig] at hr; simp [emptyOutcome] at hr
      | some orig =>
        rw [horig] at hr
        have he := guardedCreate_written_mem hr
        subst he
        simp [hu, createdByOf, buildAuditUser]
  · intro store q doc u hu r hr
    unfold postFindOneAndDeleteHook at hr
    cases hq : q.deletedDoc with
    | some d =>
      rw [hq] at hr
      dsimp only at hr
      have he := runCreate_written_mem hr
      subst he
      simp [hu, createdByOf, buildAuditUser]
    | none =>
      rw [hq] at hr
      dsimp only at hr
      cases doc with
      | none => simp [emptyOutcome] at hr
      | some d =>
        dsimp only at hr
        have he := runCreate_written_mem hr
        subst he
        simp [hu, createdByOf, buildAuditUser]

/-- A two-role user as seen by the controllers. -/
def twoRoleUser : ReqUser := ⟨5, "x@y.z", ["user", "admin"]⟩

/-- A delete performed by `twoRoleUser`. -/
def attributedDeleteQuery : DeleteQueryState :=
  ⟨some ⟨13, ⟨JsVal.str "t", JsVal.str "", JsVal.bool false, JsVal.oid 5⟩⟩,
   some (buildAuditUser twoRoleUser)⟩

theorem controller_actor_snapshot_instance :
    buildAuditUser twoRoleUser =
      { id := JsVal.oid 5, name := JsVal.str "x@y.z", role := JsVal.str "user" } ∧
    ({ model := "Task", model_id := 13, change_type := "delete"
     , logs := deleteSentinelLogs
     , created_by := some { id := JsVal.oid 5, name := JsVal.str "x@y.z"
                          , role := JsVal.str "user" } } : TaskHistoryRecord).created_by =
      some { id := JsVal.oid 5, name := JsVal.str "x@y.z", role := JsVal.str "user" } := by
  refine ⟨?_, ?_⟩
  · have h := controller_actor_snapshot.1 twoRoleUser (by
      intro r hr
      simp only [twoRoleUser, List.mem_cons, List.not_mem_nil, or_false] at hr
      rcases hr with rfl | rfl
      · exact Or.inl rfl
      · exact Or.inr rfl)
    exact h
  · have h := controller_actor_snapshot.2.2.2.2 okStore attributedDeleteQuery none twoRoleUser
      rfl
      ({ model := "Task", model_id := 13, change_type := "delete"
       , logs := deleteSentinelLogs
       , created_by := some { id := JsVal.oid 5, name := JsVal.str "x@y.z"
                            , role := JsVal.str "user" } } : TaskHistoryRecord)
      (by decide)
    exact h
